import Mathlib

/-!
Shallow embedding of the Power BI dataset updater (`src/main.rs`):
the token lifecycle (read cached token, validate it against the wall
clock, acquire and persist a fresh token) and the batch refresh
dispatcher (iterate the grouped dataset GUIDs and fire one refresh
request per GUID).

Modelling conventions:
* Machine integers (`i64`) are `Int` with explicit bounds checks, as in
  Rust's checked `str::parse::<i64>`.
* `chrono::DateTime::from_timestamp(secs, 0).unwrap()` is total only on
  chrono's representable second range; outside it the Rust code panics.
  Panicking paths are encoded as `none` / dedicated constructors.
* Network I/O is an oracle passed in explicitly: each request's
  transport result (a status code, or a transport-level error) is an
  input, and the functions classify it exactly as the Rust code does.
* The file-system cache is explicit state: the cache content before the
  call is an input, the content after the call is part of the result.
-/

/-- Rust struct `TokenResponse` (src/main.rs lines 15-20). -/
structure TokenResponse where
  token_type : String
  expires_on : String
  access_token : String
deriving DecidableEq, Repr

/-- `TokenResponse::default()` (src/main.rs lines 31-39): all fields empty. -/
def TokenResponse.default : TokenResponse := ⟨"", "", ""⟩

/-- Rust `char::is_whitespace` (the Unicode `White_Space` property),
used by `str::trim` in `validate_token` (src/main.rs line 97). -/
def rust_is_whitespace (c : Char) : Bool :=
  c.toNat = 0x09 || c.toNat = 0x0A || c.toNat = 0x0B || c.toNat = 0x0C ||
  c.toNat = 0x0D || c.toNat = 0x20 || c.toNat = 0x85 || c.toNat = 0xA0 ||
  c.toNat = 0x1680 || (0x2000 ≤ c.toNat && c.toNat ≤ 0x200A) ||
  c.toNat = 0x2028 || c.toNat = 0x2029 || c.toNat = 0x202F ||
  c.toNat = 0x205F || c.toNat = 0x3000

/-- Rust ASCII digit test, as used by `str::parse::<i64>`. -/
def is_ascii_digit (c : Char) : Bool :=
  48 ≤ c.toNat && c.toNat ≤ 57

/-- `str::trim` (src/main.rs line 97), on the character list of the
string: drop Unicode whitespace from both ends. -/
def trim_chars (cs : List Char) : List Char :=
  ((cs.dropWhile rust_is_whitespace).reverse.dropWhile rust_is_whitespace).reverse

/-- Numeric value of a digit list (most significant first). -/
def digits_to_nat (cs : List Char) : Nat :=
  cs.foldl (fun a c => a * 10 + (c.toNat - 48)) 0

/-- Parse a nonempty all-ASCII-digit character list; `none` otherwise. -/
def parse_unsigned (cs : List Char) : Option Nat :=
  if cs.isEmpty then none
  else if cs.all is_ascii_digit then some (digits_to_nat cs) else none

def I64_MAX : Int := 9223372036854775807

def NEG_I64_MIN : Int := 9223372036854775808

/-- Rust `str::parse::<i64>` (src/main.rs line 97): optional single
leading `+`/`-`, then one or more ASCII digits, and the value must fit
in `i64`; every other input is `Err` (here `none`). -/
def parse_i64 (cs : List Char) : Option Int :=
  match cs with
  | [] => none
  | c :: rest =>
    if c = '+' then
      (parse_unsigned rest).bind fun n =>
        if (n : Int) ≤ I64_MAX then some (n : Int) else none
    else if c = '-' then
      (parse_unsigned rest).bind fun n =>
        if (n : Int) ≤ NEG_I64_MIN then some (-(n : Int)) else none
    else
      (parse_unsigned cs).bind fun n =>
        if (n : Int) ≤ I64_MAX then some (n : Int) else none

/-- Smallest second count accepted by `chrono::DateTime::from_timestamp`
(`-262144-01-01T00:00:00Z`). -/
def CHRONO_MIN_TS : Int := -8334632851200

/-- Largest second count accepted by `chrono::DateTime::from_timestamp`
(`262143-12-31T23:59:59Z`). -/
def CHRONO_MAX_TS : Int := 8210298412799

/-- `validate_token` (src/main.rs lines 93-102). `now` stands for
`Utc::now().timestamp()` (always nonnegative on a correctly-set clock).
The Rust code trims and parses `expires_on` with `unwrap_or_default()`
(parse failure yields `0`), then calls
`DateTime::from_timestamp(expire_token, 0).unwrap()`, which panics when
`expire_token` is outside chrono's representable range; that panic is
modelled as `none`.  `some b` is a normal return of `b = (now < expire)`. -/
def validate_token (token : TokenResponse) (now : Int) : Option Bool :=
  let expire_token : Int := (parse_i64 (trim_chars token.expires_on.data)).getD 0
  if CHRONO_MIN_TS ≤ expire_token ∧ expire_token ≤ CHRONO_MAX_TS then
    some (decide (now < expire_token))
  else none

/-- Result of one network send at the transport layer: either an HTTP
response with a status code, or a transport-level error (the `Err` of
`reqwest::send`). -/
inductive TransportResult where
  | response (status : Nat)
  | transportError
deriving DecidableEq, Repr

/-- `reqwest::StatusCode::is_success`: the 2xx class. -/
def is_success (status : Nat) : Bool :=
  200 ≤ status && status < 300

/-- How `send_request_update_dataset` can end: `ok`/`err` are its
`Result::Ok`/`Result::Err` returns, `panicked` is the `.expect(...)`
panic on a transport-level send error (src/main.rs line 84). -/
inductive SendResult where
  | ok (status : Nat)
  | err (status : Nat)
  | panicked
deriving DecidableEq, Repr

/-- `send_request_update_dataset` (src/main.rs lines 73-91): the
transport result of the POST to the refresh endpoint is the oracle
`tr`.  A transport error hits `.expect` and panics; a response is
classified by `is_success` into `Ok(status)` / `Err(status)`. -/
def send_request_update_dataset (dataset_id : String) (token : TokenResponse)
    (tr : TransportResult) : SendResult :=
  match dataset_id, token, tr with
  | _, _, .transportError => .panicked
  | _, _, .response s => if is_success s then .ok s else .err s

/-- One hexadecimal digit, lowercase, as printed by `serde_json`. -/
def hex_digit (n : Nat) : Char :=
  if n < 10 then Char.ofNat (48 + n) else Char.ofNat (87 + n)

/-- `serde_json` string escaping: `"` and `\` get a backslash, the
control characters 0x08/0x09/0x0A/0x0C/0x0D get their short escapes,
the remaining control characters below 0x20 get `\u00xx`, everything
else is emitted unchanged. -/
def json_escape_char (c : Char) : List Char :=
  if c = '"' then ['\\', '"']
  else if c = '\\' then ['\\', '\\']
  else if c.toNat = 0x08 then ['\\', 'b']
  else if c.toNat = 0x09 then ['\\', 't']
  else if c.toNat = 0x0A then ['\\', 'n']
  else if c.toNat = 0x0C then ['\\', 'f']
  else if c.toNat = 0x0D then ['\\', 'r']
  else if c.toNat < 0x20 then
    ['\\', 'u', '0', '0', hex_digit (c.toNat / 16), hex_digit (c.toNat % 16)]
  else [c]

def json_escape (s : String) : String :=
  String.mk (s.data.flatMap json_escape_char)

/-- `serde_json::to_string(&token)` for a `TokenResponse`
(src/main.rs line 173): field order follows the struct declaration. -/
def serialize_token (t : TokenResponse) : String :=
  "\x7b\"token_type\":\"" ++ json_escape t.token_type ++
  "\",\"expires_on\":\"" ++ json_escape t.expires_on ++
  "\",\"access_token\":\"" ++ json_escape t.access_token ++ "\"\x7d"

/-- How the token-obtaining phase of `main` can end: with a usable
token, with the fatal `exit(1)` after a failed acquisition
(src/main.rs lines 251-255, spec `Unrecoverable`), or with the panic
propagated out of `validate_token`. -/
inductive ObtainOutcome where
  | ok (t : TokenResponse)
  | unrecoverable
  | panicked
deriving DecidableEq, Repr

/-- Result of the token-obtaining phase: its outcome, whether
`acquire_new_token` was invoked, and the token-cache file content
afterwards (`none` = no file). -/
structure ObtainResult where
  outcome : ObtainOutcome
  acquireCalled : Bool
  cacheAfter : Option String
deriving DecidableEq, Repr

/-- The acquisition arm of `main` (src/main.rs lines 241-257): call
`acquire_new_token`; on `Ok` persist the token with `export_token`
(which truncates and rewrites the cache file with exactly the
serialization) and use it; on `Err` print a diagnostic and `exit(1)`. -/
def acquire_and_export (acquirer : Except String TokenResponse)
    (cacheBefore : Option String) : ObtainResult :=
  match acquirer with
  | .ok t => ⟨.ok t, true, some (serialize_token t)⟩
  | .error _ => ⟨.unrecoverable, true, cacheBefore⟩

/-- The token-obtaining phase of `main` (src/main.rs lines 223-257),
the spec's `obtain_token`.  `cached` is the result of
`read_token_file()` (a pure function of the cache file content:
`none` on a missing/unreadable/unparsable file), `now` the current
wall-clock timestamp, `acquirer` the oracle for the
`acquire_new_token` network exchange, `cacheBefore` the cache file
content on entry.  A cached token that validates is returned with no
acquisition call and no cache write; otherwise the acquisition arm
runs. -/
def obtain_token (cached : Option TokenResponse) (now : Int)
    (acquirer : Except String TokenResponse)
    (cacheBefore : Option String) : ObtainResult :=
  match cached with
  | some t =>
    match validate_token t now with
    | none => ⟨.panicked, false, cacheBefore⟩
    | some true => ⟨.ok t, false, cacheBefore⟩
    | some false => acquire_and_export acquirer cacheBefore
  | none => acquire_and_export acquirer cacheBefore

/-- Per-dataset refresh outcome as reported by the dispatcher
(spec `Refresh Outcome`): success or failure carrying the HTTP status. -/
inductive Outcome where
  | success (status : Nat)
  | failure (status : Nat)
deriving DecidableEq, Repr

/-- The registry `hash_guid_entries` is built in `main`
(src/main.rs lines 213-221) by inserting each config record into a
`HashMap`, so duplicate ids are last-write-wins. -/
def build_registry (configs : List (Nat × List String)) : Nat → Option (List String) :=
  configs.foldl (fun m e => fun k => if k = e.1 then some e.2 else m k) (fun _ => none)

/-- The inner per-group loop shared by both dispatch modes
(src/main.rs lines 284-301 and 318-335): for each dataset GUID in
stored order, call `send_request_update_dataset` and record the
outcome; a panic (transport error) aborts the process.  `net i` is the
transport result of the `i`-th send call; the returned triple is
(outcomes in visitation order, next call index, panicked?).  The call
index counts send calls actually issued, the panicking one included. -/
def run_group (key : Nat) (datasets : List String) (token : TokenResponse)
    (net : Nat → TransportResult) (i : Nat) :
    List (Nat × String × Outcome) × Nat × Bool :=
  match datasets with
  | [] => ([], i, false)
  | d :: rest =>
    match send_request_update_dataset d token (net i) with
    | .panicked => ([], i + 1, true)
    | .ok s =>
      let r := run_group key rest token net (i + 1)
      ((key, d, .success s) :: r.1, r.2.1, r.2.2)
    | .err s =>
      let r := run_group key rest token net (i + 1)
      ((key, d, .failure s) :: r.1, r.2.1, r.2.2)

/-- `AllGroups` dispatch (menu arm `0`, src/main.rs lines 278-303):
iterate every (key, datasets) entry of the registry in iteration order
and run the per-group loop; a per-item `Err` never stops the walk, only
a panic does. -/
def dispatch_all (groups : List (Nat × List String)) (token : TokenResponse)
    (net : Nat → TransportResult) (i : Nat) :
    List (Nat × String × Outcome) × Nat × Bool :=
  match groups with
  | [] => ([], i, false)
  | (k, ds) :: rest =>
    let r := run_group k ds token net i
    if r.2.2 then (r.1, r.2.1, true)
    else
      let r2 := dispatch_all rest token net r.2.1
      (r.1 ++ r2.1, r2.2.1, r2.2.2)

/-- Result of one iteration of the `SingleGroup` prompt loop:
`notFound` models the "Valor não encotrado" arm, which re-prompts
(recoverable); `completed` carries the outcomes and whether a send
panicked. -/
inductive SingleResult where
  | notFound
  | completed (outcomes : List (Nat × String × Outcome)) (panicked : Bool)
deriving DecidableEq, Repr

/-- `SingleGroup(k)` dispatch, one iteration of the prompt loop (menu
arm `1`, src/main.rs lines 304-344): look the key up in the registry;
on `None` report not-found and issue no send call (the loop re-prompts);
on `Some` run the per-group loop.  The second component counts send
calls issued. -/
def dispatch_single (registry : Nat → Option (List String)) (k : Nat)
    (token : TokenResponse) (net : Nat → TransportResult) : SingleResult × Nat :=
  match registry k with
  | none => (.notFound, 0)
  | some ds =>
    let r := run_group k ds token net 0
    (.completed r.1 r.2.2, r.2.1)

/-- The (key, GUID) pairs of a registry snapshot, groups in iteration
order, members in stored order: the identifiers a full dispatch visits. -/
def all_ids : List (Nat × List String) → List (Nat × String)
  | [] => []
  | g :: rest => g.2.map (fun d => (g.1, d)) ++ all_ids rest

/-! ### List helper lemmas for `str::trim` -/

theorem dropWhile_append_of_all {p : Char → Bool} {w t : List Char}
    (h : ∀ c ∈ w, p c = true) : (w ++ t).dropWhile p = t.dropWhile p := by
  induction w with
  | nil => rfl
  | cons a w ih =>
    have ha : p a = true := h a (List.mem_cons_self a w)
    simp only [List.cons_append, List.dropWhile_cons, ha, if_true]
    exact ih (fun c hc => h c (List.mem_cons_of_mem a hc))

theorem dropWhile_eq_nil_of_all {p : Char → Bool} {w : List Char}
    (h : ∀ c ∈ w, p c = true) : w.dropWhile p = [] := by
  have := dropWhile_append_of_all (t := []) h
  simpa using this

theorem dropWhile_eq_self_of_all {p : Char → Bool} {l : List Char}
    (h : ∀ c ∈ l, p c = false) : l.dropWhile p = l := by
  cases l with
  | nil => rfl
  | cons a l =>
    have ha : p a = false := h a (List.mem_cons_self a l)
    simp [List.dropWhile_cons, ha]

theorem trim_chars_of_no_ws {l : List Char}
    (h : ∀ c ∈ l, rust_is_whitespace c = false) : trim_chars l = l := by
  unfold trim_chars
  rw [dropWhile_eq_self_of_all h]
  rw [dropWhile_eq_self_of_all (fun c hc => h c (List.mem_reverse.mp hc))]
  exact l.reverse_reverse

theorem trim_chars_pad {s w1 w2 : List Char}
    (hs : ∀ c ∈ s, rust_is_whitespace c = false)
    (h1 : ∀ c ∈ w1, rust_is_whitespace c = true)
    (h2 : ∀ c ∈ w2, rust_is_whitespace c = true) :
    trim_chars (w1 ++ (s ++ w2)) = trim_chars s := by
  unfold trim_chars
  rw [dropWhile_append_of_all h1]
  cases s with
  | nil =>
    simp only [List.nil_append]
    rw [dropWhile_eq_nil_of_all h2]
    rfl
  | cons a s' =>
    have ha : rust_is_whitespace a = false := hs a (List.mem_cons_self a s')
    rw [show ((a :: s') ++ w2).dropWhile rust_is_whitespace = (a :: s') ++ w2 by
      simp [List.dropWhile_cons, ha]]
    rw [show (a :: s').dropWhile rust_is_whitespace = a :: s' by
      simp [List.dropWhile_cons, ha]]
    rw [List.reverse_append]
    rw [dropWhile_append_of_all (fun c hc => h2 c (List.mem_reverse.mp hc))]

/-! ### Dispatcher helper lemmas -/

theorem run_group_no_panic (key : Nat) (token : TokenResponse)
    (net : Nat → TransportResult)
    (hnet : ∀ j, net j ≠ TransportResult.transportError) :
    ∀ (datasets : List String) (i : Nat),
      (run_group key datasets token net i).1.map (fun e => (e.1, e.2.1)) =
        datasets.map (fun d => (key, d)) ∧
      (run_group key datasets token net i).2.1 = i + datasets.length ∧
      (run_group key datasets token net i).2.2 = false := by
  intro datasets
  induction datasets with
  | nil => intro i; simp [run_group]
  | cons d rest ih =>
    intro i
    obtain ⟨ihm, ihi, ihp⟩ := ih (i + 1)
    cases hni : net i with
    | transportError => exact absurd hni (hnet i)
    | response s =>
      by_cases hs : is_success s = true
      · simp [run_group, hni, send_request_update_dataset, hs, ihm, ihi, ihp]
        omega
      · simp only [Bool.not_eq_true] at hs
        simp [run_group, hni, send_request_update_dataset, hs, ihm, ihi, ihp]
        omega

theorem dispatch_all_no_panic (token : TokenResponse)
    (net : Nat → TransportResult)
    (hnet : ∀ j, net j ≠ TransportResult.transportError) :
    ∀ (groups : List (Nat × List String)) (i : Nat),
      (dispatch_all groups token net i).1.map (fun e => (e.1, e.2.1)) =
        all_ids groups ∧
      (dispatch_all groups token net i).2.1 = i + (all_ids groups).length ∧
      (dispatch_all groups token net i).2.2 = false := by
  intro groups
  induction groups with
  | nil => intro i; simp [dispatch_all, all_ids]
  | cons g rest ih =>
    intro i
    obtain ⟨k, ds⟩ := g
    obtain ⟨rm, ri, rp⟩ := run_group_no_panic k token net hnet ds i
    obtain ⟨ihm, ihi, ihp⟩ := ih (i + ds.length)
    simp [dispatch_all, rp, rm, ihm, ihi, ihp, ri, all_ids]
    omega

/-! ### Claims -/

/-- C1 (counterexample): the claim says `send_request_update_dataset`
returns `Failure(status)` for every non-success outcome *including
network-transport errors*.  It does not: on a transport-level send
error the `.expect` call panics (src/main.rs line 84), so at the
concrete input below the function neither returns `Ok` nor `Err`. -/
theorem C1_counterexample :
    ¬ (∃ s, send_request_update_dataset "a" TokenResponse.default
              TransportResult.transportError = SendResult.ok s ∨
            send_request_update_dataset "a" TokenResponse.default
              TransportResult.transportError = SendResult.err s) := by
  rintro ⟨s, h | h⟩ <;> simp [send_request_update_dataset] at h

/-- C1 (amended): for every transport *response*, the Refresh Operation
returns `Ok(status)` exactly when the status is success-class and
`Err(status)` otherwise; on a network-transport error it panics
(it does not return a `Failure`). -/
theorem C1_send_classification (dataset_id : String) (token : TokenResponse)
    (s : Nat) :
    send_request_update_dataset dataset_id token (TransportResult.response s) =
      (if is_success s then SendResult.ok s else SendResult.err s) ∧
    send_request_update_dataset dataset_id token
      TransportResult.transportError = SendResult.panicked :=
  ⟨rfl, rfl⟩

/-- C2: when `expires_on` does not parse as an `i64` (empty string
included), `unwrap_or_default()` substitutes `0`, which is inside
chrono's range, so `validate_token` returns normally (no panic, no
`none`) with `now < 0`, i.e. `false` for every nonnegative wall-clock
time (`Utc::now()` is nonnegative): fail-closed. -/
theorem C2_validate_fail_closed (tt ex ac : String) (now : Int)
    (hparse : parse_i64 (trim_chars ex.data) = none) (hnow : 0 ≤ now) :
    validate_token ⟨tt, ex, ac⟩ now = some false := by
  unfold validate_token
  simp only [hparse, Option.getD_none]
  rw [if_pos (by constructor <;> decide)]
  simp only [Option.some.injEq, decide_eq_false_iff_not, not_lt]
  exact hnow

/-- C2 witness: the empty `expires_on` at a concrete current time. -/
theorem C2_validate_fail_closed_witness :
    parse_i64 (trim_chars ("".data)) = none ∧ (0 : Int) ≤ 1700000000 ∧
    validate_token ⟨"", "", ""⟩ 1700000000 = some false :=
  ⟨by decide, by decide,
    C2_validate_fail_closed "" "" "" 1700000000 (by decide) (by decide)⟩

/-- C3 (counterexample): the claim says a parsed `expires_on` strictly
later than the current time makes `validate_token` return true.  But
`"9223372036854775807"` (`i64::MAX`) parses and is far in the future of
`now = 1700000000`, yet `DateTime::from_timestamp` rejects it (it is
beyond chrono's representable range), so the `.unwrap()` at
src/main.rs line 99 panics (modelled `none`) instead of returning true. -/
theorem C3_counterexample :
    parse_i64 (trim_chars ("9223372036854775807".data)) =
      some 9223372036854775807 ∧
    (1700000000 : Int) < 9223372036854775807 ∧
    validate_token ⟨"", "9223372036854775807", ""⟩ 1700000000 = none :=
  ⟨by decide, by decide, by decide⟩

/-- C3 (amended): for every `expires_on` that parses to a timestamp
inside chrono's representable range, `validate_token` returns normally
and its result is exactly `now < expires_on`; outside that range the
code panics. -/
theorem C3_validate_exact (tt ex ac : String) (now ts : Int)
    (hparse : parse_i64 (trim_chars ex.data) = some ts)
    (hmin : CHRONO_MIN_TS ≤ ts) (hmax : ts ≤ CHRONO_MAX_TS) :
    validate_token ⟨tt, ex, ac⟩ now = some (decide (now < ts)) := by
  unfold validate_token
  simp only [hparse, Option.getD_some]
  rw [if_pos ⟨hmin, hmax⟩]

/-- C3 witness: a past expiry yields `false`, a future expiry `true`,
at concrete inputs. -/
theorem C3_validate_exact_witness :
    parse_i64 (trim_chars ("4102444800".data)) = some 4102444800 ∧
    CHRONO_MIN_TS ≤ (4102444800 : Int) ∧ (4102444800 : Int) ≤ CHRONO_MAX_TS ∧
    validate_token ⟨"", "4102444800", ""⟩ 1700000000 = some true ∧
    validate_token ⟨"", "100", ""⟩ 1700000000 = some false := by
  refine ⟨by decide, by decide, by decide, ?_, ?_⟩
  · have h := C3_validate_exact "" "4102444800" "" 1700000000 4102444800
      (by decide) (by decide) (by decide)
    rw [h]; decide
  · have h := C3_validate_exact "" "100" "" 1700000000 100
      (by decide) (by decide) (by decide)
    rw [h]; decide

/-- C4: a cached Token Record that the validator accepts at the current
time is returned as-is: `acquire_new_token` is never invoked
(`acquireCalled = false`) and the cache file is untouched. -/
theorem C4_cache_hit_short_circuit (t : TokenResponse) (now : Int)
    (acquirer : Except String TokenResponse) (c : Option String)
    (hv : validate_token t now = some true) :
    obtain_token (some t) now acquirer c = ⟨.ok t, false, c⟩ := by
  simp [obtain_token, hv]

/-- C4 witness: a concrete unexpired cached token; the acquirer oracle
is set to fail, so the returned token can only come from the cache. -/
theorem C4_cache_hit_short_circuit_witness :
    validate_token ⟨"bearer", "4102444800", "tok"⟩ 1700000000 = some true ∧
    obtain_token (some ⟨"bearer", "4102444800", "tok"⟩) 1700000000
      (Except.error "down") (some "old") =
      ⟨.ok ⟨"bearer", "4102444800", "tok"⟩, false, some "old"⟩ :=
  ⟨by decide,
    C4_cache_hit_short_circuit ⟨"bearer", "4102444800", "tok"⟩ 1700000000
      (Except.error "down") (some "old") (by decide)⟩

/-- C6: in `SingleGroup(k)` mode with `k` absent from the registry, one
iteration of the prompt loop reports not-found (and re-prompts, a
recoverable condition) and issues zero Refresh Operation calls. -/
theorem C6_single_group_not_found (registry : Nat → Option (List String))
    (k : Nat) (token : TokenResponse) (net : Nat → TransportResult)
    (h : registry k = none) :
    dispatch_single registry k token net = (.notFound, 0) := by
  unfold dispatch_single
  rw [h]

/-- C6 witness: key `2` is absent from a registry built from a single
config record with id `1`. -/
theorem C6_single_group_not_found_witness :
    build_registry [(1, ["a"])] 2 = none ∧
    dispatch_single (build_registry [(1, ["a"])]) 2 TokenResponse.default
      (fun _ => TransportResult.response 200) = (.notFound, 0) :=
  ⟨by decide,
    C6_single_group_not_found (build_registry [(1, ["a"])]) 2
      TokenResponse.default (fun _ => TransportResult.response 200) (by decide)⟩

/-- C7: with no valid cached token (cache miss or expired) and a
successful Acquirer response `t`, `obtain_token` returns `t` and the
cache file afterwards contains exactly `serde_json`'s serialization of
`t` (`File::create` truncates, so the old contents are gone). -/
theorem C7_acquire_success_persists (cached : Option TokenResponse)
    (now : Int) (t : TokenResponse) (c : Option String)
    (hmiss : cached = none ∨
      ∃ c0, cached = some c0 ∧ validate_token c0 now = some false) :
    obtain_token cached now (Except.ok t) c =
      ⟨.ok t, true, some (serialize_token t)⟩ := by
  rcases hmiss with h | ⟨c0, rfl, hv⟩
  · rw [h]; rfl
  · simp [obtain_token, hv, acquire_and_export]

/-- C7 witness: an absent cache and a concrete acquired token; the
serialization is spelled out byte for byte. -/
theorem C7_acquire_success_persists_witness :
    obtain_token none 0 (Except.ok ⟨"bearer", "99", "secret"⟩) (some "old") =
      ⟨.ok ⟨"bearer", "99", "secret"⟩, true,
        some (serialize_token ⟨"bearer", "99", "secret"⟩)⟩ ∧
    serialize_token ⟨"bearer", "99", "secret"⟩ =
      "\x7b\"token_type\":\"bearer\",\"expires_on\":\"99\",\"access_token\":\"secret\"\x7d" :=
  ⟨C7_acquire_success_persists none 0 ⟨"bearer", "99", "secret"⟩ (some "old")
      (Or.inl rfl),
    by decide⟩

/-- C8: with no valid cached token and a failing Acquirer response,
`obtain_token` ends in the fatal `Unrecoverable` outcome
(`exit(1)`) and the cache file content is unchanged: `export_token`
runs only on the success arm. -/
theorem C8_acquire_failure_no_write (cached : Option TokenResponse)
    (now : Int) (e : String) (c : Option String)
    (hmiss : cached = none ∨
      ∃ c0, cached = some c0 ∧ validate_token c0 now = some false) :
    obtain_token cached now (Except.error e) c = ⟨.unrecoverable, true, c⟩ := by
  rcases hmiss with h | ⟨c0, rfl, hv⟩
  · rw [h]; rfl
  · simp [obtain_token, hv, acquire_and_export]

/-- C8 witness: absent cache, failing acquirer, concrete prior cache
content left in place. -/
theorem C8_acquire_failure_no_write_witness :
    obtain_token none 0 (Except.error "bad secrets") (some "old") =
      ⟨.unrecoverable, true, some "old"⟩ :=
  C8_acquire_failure_no_write none 0 "bad secrets" (some "old") (Or.inl rfl)

/-- C9: two successive runs of `obtain_token` over an unexpired cached
token.  `read_token_file` is a pure function of the cache file content,
so both runs parse the same cached record `t`; the first run writes
nothing (`cacheAfter = c`), hence the second run sees the identical
cache and both return the byte-identical record `t`. -/
theorem C9_obtain_token_idempotent (t : TokenResponse) (now1 now2 : Int)
    (acq1 acq2 : Except String TokenResponse) (c : Option String)
    (h1 : validate_token t now1 = some true)
    (h2 : validate_token t now2 = some true) :
    obtain_token (some t) now1 acq1 c = ⟨.ok t, false, c⟩ ∧
    obtain_token (some t) now2 acq2 c = ⟨.ok t, false, c⟩ := by
  constructor
  · simp [obtain_token, h1]
  · simp [obtain_token, h2]

/-- C9 witness: both runs at concrete (different) times inside the
token's validity window return the same record and leave the cache as
it was. -/
theorem C9_obtain_token_idempotent_witness :
    validate_token ⟨"bearer", "4102444800", "tok"⟩ 1700000000 = some true ∧
    validate_token ⟨"bearer", "4102444800", "tok"⟩ 1700000600 = some true ∧
    obtain_token (some ⟨"bearer", "4102444800", "tok"⟩) 1700000000
      (Except.error "down") (some "bytes") =
      ⟨.ok ⟨"bearer", "4102444800", "tok"⟩, false, some "bytes"⟩ ∧
    obtain_token (some ⟨"bearer", "4102444800", "tok"⟩) 1700000600
      (Except.error "down") (some "bytes") =
      ⟨.ok ⟨"bearer", "4102444800", "tok"⟩, false, some "bytes"⟩ := by
  have h := C9_obtain_token_idempotent ⟨"bearer", "4102444800", "tok"⟩
    1700000000 1700000600 (Except.error "down") (Except.error "down")
    (some "bytes") (by decide) (by decide)
  exact ⟨by decide, by decide, h.1, h.2⟩

/-- C5: in `AllGroups` mode, whenever every send call gets a transport
response (each call has an outcome, success or failure), the dispatcher
visits every (group key, dataset GUID) pair of the registry exactly
once: the outcome list projects to exactly the full identifier list in
visitation order, the number of send calls issued equals the number of
identifiers, and the walk is never aborted.  The statement holds for
every response oracle `net`, so failures on earlier identifiers never
suppress later calls. -/
theorem C5_all_groups_one_call_each (groups : List (Nat × List String))
    (token : TokenResponse) (net : Nat → TransportResult)
    (hnet : ∀ j, net j ≠ TransportResult.transportError) :
    (dispatch_all groups token net 0).1.map (fun e => (e.1, e.2.1)) =
      all_ids groups ∧
    (dispatch_all groups token net 0).2.1 = (all_ids groups).length ∧
    (dispatch_all groups token net 0).2.2 = false := by
  obtain ⟨hm, hi, hp⟩ := dispatch_all_no_panic token net hnet groups 0
  exact ⟨hm, by omega, hp⟩

/-- C5 witness: registry `{1: [a,b], 2: [c]}` with a failing first call
(404 on `a`) still yields three calls and three outcomes, the failure
suppressing nothing. -/
theorem C5_all_groups_one_call_each_witness :
    (∀ j, (fun j => TransportResult.response (if j = 0 then 404 else 202)) j ≠
      TransportResult.transportError) ∧
    (dispatch_all [(1, ["a", "b"]), (2, ["c"])] TokenResponse.default
        (fun j => TransportResult.response (if j = 0 then 404 else 202)) 0).1.map
        (fun e => (e.1, e.2.1)) =
      all_ids [(1, ["a", "b"]), (2, ["c"])] ∧
    (dispatch_all [(1, ["a", "b"]), (2, ["c"])] TokenResponse.default
        (fun j => TransportResult.response (if j = 0 then 404 else 202)) 0).2.1 =
      (all_ids [(1, ["a", "b"]), (2, ["c"])]).length ∧
    (dispatch_all [(1, ["a", "b"]), (2, ["c"])] TokenResponse.default
        (fun j => TransportResult.response (if j = 0 then 404 else 202)) 0).2.2 =
      false := by
  have h := C5_all_groups_one_call_each [(1, ["a", "b"]), (2, ["c"])]
    TokenResponse.default
    (fun j => TransportResult.response (if j = 0 then 404 else 202))
    (fun j => by simp)
  exact ⟨fun j => by simp, h.1, h.2.1, h.2.2⟩

/-- C10: `validate_token` trims the `expires_on` string before parsing
(src/main.rs line 97), so surrounding a whitespace-free string (every
numeric string is one) with any leading and trailing Unicode-whitespace
padding leaves the validation result unchanged. -/
theorem C10_trim_whitespace_padding (tt ac : String) (s w1 w2 : List Char)
    (now : Int)
    (hs : ∀ c ∈ s, rust_is_whitespace c = false)
    (h1 : ∀ c ∈ w1, rust_is_whitespace c = true)
    (h2 : ∀ c ∈ w2, rust_is_whitespace c = true) :
    validate_token ⟨tt, String.mk (w1 ++ (s ++ w2)), ac⟩ now =
      validate_token ⟨tt, String.mk s, ac⟩ now := by
  unfold validate_token
  rw [show (String.mk (w1 ++ (s ++ w2))).data = w1 ++ (s ++ w2) from rfl]
  rw [show (String.mk s).data = s from rfl]
  rw [trim_chars_pad hs h1 h2]

/-- C10 witness: `" \t123\u{00A0} "` (space, tab padding with a no-break
space) validates exactly like `"123"`. -/
theorem C10_trim_whitespace_padding_witness :
    (∀ c ∈ ("123".data), rust_is_whitespace c = false) ∧
    (∀ c ∈ ([' ', '\t'] : List Char), rust_is_whitespace c = true) ∧
    (∀ c ∈ ([Char.ofNat 0xA0, ' '] : List Char), rust_is_whitespace c = true) ∧
    validate_token
        ⟨"", String.mk ([' ', '\t'] ++ ("123".data ++ [Char.ofNat 0xA0, ' '])), ""⟩
        7 =
      validate_token ⟨"", String.mk ("123".data), ""⟩ 7 :=
  ⟨by decide, by decide, by decide,
    C10_trim_whitespace_padding "" "" ("123".data) [' ', '\t']
      [Char.ofNat 0xA0, ' '] 7 (by decide) (by decide) (by decide)⟩
